import Mathlib

/-!
Shallow embedding of the travel-assistant application
(`travel/configuration/*.py`): prompt assembly, completion client,
primary store, conversation-session manager and session authentication,
with theorems checking the specification's claims against it.
-/

namespace Travel

/-! ## Chat messages (`{"role": ..., "content": ...}` dictionaries) -/

structure Msg where
  role : String
  content : String
deriving DecidableEq, Repr

/-! ## Python string helpers

`pyStrip` models Python `str.strip()` (drop whitespace at both ends),
`pySplit` models `str.split()` with no argument (split on whitespace
runs, dropping empty tokens), `pyJoin` models `sep.join(list)`, and
`pySlice s n` models the slice `s[:n]`. -/

def pyIsSpace (c : Char) : Bool :=
  c == ' ' || c == '\t' || c == '\n' || c == '\r' || c == '\x0b' || c == '\x0c'

def pyStrip (s : String) : String :=
  ⟨((s.toList.dropWhile pyIsSpace).reverse.dropWhile pyIsSpace).reverse⟩

def pySplitAux : List Char → List Char → List (List Char)
  | [], acc => if acc.isEmpty then [] else [acc.reverse]
  | c :: cs, acc =>
    if pyIsSpace c then
      if acc.isEmpty then pySplitAux cs [] else acc.reverse :: pySplitAux cs []
    else pySplitAux cs (c :: acc)

def pySplit (s : String) : List String :=
  (pySplitAux s.toList []).map String.mk

def pyJoin (sep : String) : List String → String
  | [] => ""
  | [x] => x
  | x :: y :: ys => x ++ sep ++ pyJoin sep (y :: ys)

def pySlice (s : String) (n : Nat) : String := ⟨s.toList.take n⟩

/-! ## `TravelPrompts` (travel_prompts.py)

User preferences: the dictionary with optional keys `budget_range`,
`travel_style` (a list) and `preferred_climate`. `none` at the outer
level stands for the Python `None` or the empty (falsy) dictionary. -/

structure Preferences where
  budget_range : Option String
  travel_style : Option (List String)
  preferred_climate : Option String
deriving DecidableEq, Repr

/-- `TravelPrompts._get_current_season`: the month (1..12) of the current
date decides the season string. -/
def get_current_season (month : Nat) : String :=
  if month == 12 || month == 1 || month == 2 then "winter"
  else if month == 3 || month == 4 || month == 5 then "spring"
  else if month == 6 || month == 7 || month == 8 then "summer"
  else "autumn"

/-- `TravelPrompts._get_budget_guidance`: fixed lookup table with a
generic fallback. -/
def get_budget_guidance (budget_range : String) : String :=
  if budget_range == "Budget" then
    "Focus on hostels, public transport, local eateries, and free attractions"
  else if budget_range == "Mid-range" then
    "Balance of comfort and value with 3-star hotels, mix of dining options"
  else if budget_range == "Luxury" then
    "Premium accommodations, fine dining, private transfers, and exclusive experiences"
  else if budget_range == "No preference" then
    "I'll provide options across all budget ranges"
  else "I'll tailor suggestions to your needs"

/-- One entry of `TravelPrompts._get_style_guidance`'s lookup table;
unknown styles degrade to the lower-cased style name itself. -/
def style_tip (style : String) : String :=
  if style == "Adventure" then
    "outdoor activities, hiking, extreme sports, and off-the-beaten-path destinations"
  else if style == "Relaxation" then
    "spas, beaches, quiet retreats, and slow travel experiences"
  else if style == "Culture" then
    "museums, historical sites, local traditions, and cultural immersion"
  else if style == "Business" then
    "efficiency, connectivity, meeting facilities, and professional amenities"
  else if style == "Family" then
    "kid-friendly activities, safety, educational experiences, and convenience"
  else if style == "Solo" then
    "safety considerations, social opportunities, and personal growth experiences"
  else style.toLower

/-- `TravelPrompts._get_style_guidance`. -/
def get_style_guidance (styles : List String) : String :=
  "prioritize " ++ pyJoin ", " (styles.map style_tip)

/-- `TravelPrompts._get_climate_suggestions`. -/
def get_climate_suggestions (climate : String) : String :=
  let body :=
    if climate == "Tropical" then
      "warm beaches, rainforests, and consistent temperatures year-round"
    else if climate == "Temperate" then
      "moderate seasons, comfortable walking weather, and varied landscapes"
    else if climate == "Cold" then
      "winter sports, northern lights, cozy accommodations, and cold-weather activities"
    else if climate == "Desert" then
      "dry climates, unique landscapes, and considerations for extreme temperatures"
    else climate.toLower
  "seek destinations with " ++ body ++ " characteristics"

/-- The leading fixed part of `TravelPrompts._get_system_prompt`,
interpolating the current date and season. -/
def system_prompt_header (current_date current_season : String) : String :=
  "You are an expert Travel Assistant AI with comprehensive knowledge of global destinations, travel planning, and booking procedures. Today's date is "
  ++ current_date ++ " and we're in " ++ current_season ++ " season.\n\n"
  ++ "Your core expertise includes:\n"
  ++ "🌍 DESTINATIONS: Worldwide knowledge of cities, countries, attractions, and hidden gems\n"
  ++ "✈️ TRANSPORTATION: Flights, trains, buses, car rentals, and local transport options\n"
  ++ "🏨 ACCOMMODATION: Hotels, hostels, vacation rentals, and unique stays\n"
  ++ "🎯 PLANNING: Itineraries, budgeting, timing, and travel optimization\n"
  ++ "📋 LOGISTICS: Visas, documentation, insurance, health requirements, and safety\n"
  ++ "🍴 LOCAL INSIGHTS: Culture, cuisine, customs, language tips, and etiquette\n"
  ++ "💰 BUDGETING: Cost analysis, money-saving tips, and expense planning\n"
  ++ "🌦️ SEASONAL ADVICE: Weather patterns, best times to visit, and seasonal events\n\n"

/-- The trailing fixed part of `TravelPrompts._get_system_prompt`. -/
def response_guidelines : String :=
  "RESPONSE GUIDELINES:\n"
  ++ "• Provide specific, actionable advice with concrete next steps\n"
  ++ "• Include relevant costs, timeframes, and booking platforms when helpful\n"
  ++ "• Suggest 2-3 alternatives for major recommendations\n"
  ++ "• Consider seasonal factors, local events, and current travel conditions\n"
  ++ "• Always include safety considerations and practical tips\n"
  ++ "• Be enthusiastic but realistic about recommendations\n"
  ++ "• Ask clarifying questions when you need more information\n"
  ++ "• Format responses with clear sections and bullet points for readability\n"
  ++ "• Include relevant website links or booking platforms when applicable\n\n"
  ++ "CONVERSATION STYLE:\n"
  ++ "• Professional yet friendly and enthusiastic\n"
  ++ "• Use travel emojis appropriately (✈️🏨🌍🎒)\n"
  ++ "• Provide detailed explanations while staying concise\n"
  ++ "• Show cultural awareness and sensitivity\n"
  ++ "• Encourage exploration while prioritizing safety\n\n"
  ++ "Remember: You're not just providing information, you're helping create memorable travel experiences!"

/-- `TravelPrompts._get_system_prompt`. The current date string and month
are parameters (in the source they come from `datetime.now()`); the
Python truthiness tests on each preference value are made explicit. -/
def get_system_prompt (current_date : String) (month : Nat)
    (user_preferences : Option Preferences) : String :=
  let current_season := get_current_season month
  let base := system_prompt_header current_date current_season
  let withPrefs :=
    match user_preferences with
    | none => base
    | some p =>
      let s0 := base ++ "USER PREFERENCES:\n"
      let s1 :=
        match p.budget_range with
        | some br =>
          if br != "" then
            s0 ++ "• Budget Level: " ++ br ++ " - " ++ get_budget_guidance br ++ "\n"
          else s0
        | none => s0
      let s2 :=
        match p.travel_style with
        | some styles =>
          if !styles.isEmpty then
            s1 ++ "• Travel Style: " ++ pyJoin ", " styles ++ " - "
               ++ get_style_guidance styles ++ "\n"
          else s1
        | none => s1
      let s3 :=
        match p.preferred_climate with
        | some climate =>
          if climate != "" && climate != "No preference" then
            s2 ++ "• Climate Preference: " ++ climate ++ " - "
               ++ get_climate_suggestions climate ++ "\n"
          else s2
        | none => s2
      s3 ++ "\n"
  withPrefs ++ response_guidelines

/-- `TravelPrompts.build_context`: the system message, then the last four
history entries filtered to the roles user/assistant, then the new user
query. An empty history stands for both the Python `None` default and
the falsy empty list. -/
def build_context (current_date : String) (month : Nat)
    (user_preferences : Option Preferences)
    (conversation_history : List Msg) (user_query : String) : List Msg :=
  let system_prompt := get_system_prompt current_date month user_preferences
  let messages : List Msg := [⟨"system", system_prompt⟩]
  let messages :=
    if conversation_history.isEmpty then messages
    else
      let recent_history :=
        if conversation_history.length > 4 then
          conversation_history.drop (conversation_history.length - 4)
        else conversation_history
      messages ++
        (recent_history.filter (fun m => m.role == "user" || m.role == "assistant")).map
          (fun m => ⟨m.role, m.content⟩)
  messages ++ [⟨"user", user_query⟩]

/-! ## `GroqClient.get_response` (groq_client.py)

The single HTTP POST is modelled by its observable outcome: either the
`requests` call raised (`requestError`, the `requests.RequestException`
branch), or a response with a status code and a body arrived.  The body
is seen through `response.json()` and the subsequent key accesses:
`malformed` stands for a body on which `.json()` raises
`json.JSONDecodeError`; a parsed body carries the optional `choices`
array, each choice being the optional `message.content` string (absent
when the key lookups raise, which the final `except Exception` catches). -/

inductive Body where
  | malformed : Body
  | parsed : Option (List (Option String)) → Body
deriving DecidableEq, Repr

structure HttpResponse where
  status : Nat
  body : Body
deriving DecidableEq, Repr

inductive FetchResult where
  | requestError : FetchResult
  | success : HttpResponse → FetchResult
deriving DecidableEq, Repr

/-- `GroqClient.get_response`: on status 200 with a non-empty `choices`
array return the first choice's content stripped; every other branch of
the source (non-200 status, missing/empty `choices`, decode error,
transport error, key error) logs and returns `None`, modelled by
`none`. The function is total: no exception propagates. -/
def get_response (fetch : FetchResult) : Option String :=
  match fetch with
  | .requestError => none
  | .success r =>
    if r.status == 200 then
      match r.body with
      | .malformed => none
      | .parsed none => none
      | .parsed (some []) => none
      | .parsed (some (c :: _)) =>
        match c with
        | none => none
        | some content => some (pyStrip content)
    else none

/-! ## `DatabaseManager` (database.py) — the Primary Store

The relational state is the three tables these claims touch: `users`,
`conversations` and `conversation_sessions`.  A preference snapshot (a
JSON object) is modelled as a key-value list; `[]` is the empty object
`\x7b\x7d`.  Each operation takes a `StoreOutcome` describing how its
fresh connection and statements fared: `connFail` is
`psycopg2.OperationalError` inside `get_connection` (so `conn is None`),
`stmtError` is a `psycopg2.Error` raised by a statement and caught by
the operation's `except` clause, and `ok` is the success path. -/

def PrefSnapshot : Type := List (String × String)

instance : DecidableEq PrefSnapshot := by
  unfold PrefSnapshot
  infer_instance

structure UserRow where
  user_id : String
  email : Option String
  preferences : PrefSnapshot
  created_at : Nat
  last_active : Nat

structure ConversationRow where
  user_id : String
  conversation_data : String
  session_id : Option String
  created_at : Nat
deriving DecidableEq, Repr

structure SessionRow where
  session_id : String
  user_id : String
  title : String
  created_at : Nat
  last_updated : Nat
  message_count : Nat
deriving DecidableEq, Repr

structure Db where
  users : List UserRow
  conversations : List ConversationRow
  sessions : List SessionRow

inductive StoreOutcome where
  | connFail : StoreOutcome
  | stmtError : StoreOutcome
  | ok : StoreOutcome
deriving DecidableEq, Repr

/-- What `get_user_data` returns: the `preferences` value (the empty
object when there is no row) and the selected `conversation_data`
values. -/
structure UserData where
  preferences : PrefSnapshot
  conversations : List String
deriving DecidableEq

/-- `ORDER BY created_at DESC`: insert one row into a list already
sorted by descending `created_at`. -/
def insertDesc (c : ConversationRow) : List ConversationRow → List ConversationRow
  | [] => [c]
  | d :: ds =>
    if c.created_at ≤ d.created_at then d :: insertDesc c ds
    else c :: d :: ds

/-- `ORDER BY created_at DESC` over a whole table selection. -/
def sortDesc : List ConversationRow → List ConversationRow
  | [] => []
  | c :: cs => insertDesc c (sortDesc cs)

/-- The rows of the `conversations` table belonging to one user
(`WHERE user_id = %s`). -/
def userConvRows (db : Db) (user_id : String) : List ConversationRow :=
  db.conversations.filter (fun c => c.user_id == user_id)

/-- `DatabaseManager.get_user_data`: the user's preferences row (or the
empty object) plus the last 10 conversations by descending
`created_at`.  Both failure outcomes return the benign
`{'preferences': \x7b\x7d, 'conversations': []}`. -/
def get_user_data (o : StoreOutcome) (db : Db) (user_id : String) : UserData :=
  match o with
  | .connFail => ⟨[], []⟩
  | .stmtError => ⟨[], []⟩
  | .ok =>
    let preferences :=
      match db.users.find? (fun r => r.user_id == user_id) with
      | some r => r.preferences
      | none => []
    let convs := (sortDesc (userConvRows db user_id)).take 10
    ⟨preferences, convs.map (fun c => c.conversation_data)⟩

/-- The `INSERT ... ON CONFLICT (user_id) DO UPDATE SET preferences,
last_active` statement of `update_user_preferences`. -/
def upsertPrefs (now : Nat) (user_id : String) (p : PrefSnapshot) :
    List UserRow → List UserRow
  | [] => [⟨user_id, none, p, now, now⟩]
  | r :: rs =>
    if r.user_id == user_id then
      ⟨r.user_id, r.email, p, r.created_at, now⟩ :: rs
    else r :: upsertPrefs now user_id p rs

/-- `DatabaseManager.update_user_preferences`: wholesale insert-or-replace
of the snapshot; `False` on either failure. -/
def update_user_preferences (o : StoreOutcome) (now : Nat) (db : Db)
    (user_id : String) (preferences : PrefSnapshot) : Db × Bool :=
  match o with
  | .connFail => (db, false)
  | .stmtError => (db, false)
  | .ok => ({ db with users := upsertPrefs now user_id preferences db.users }, true)

/-- The `INSERT ... ON CONFLICT (user_id) DO UPDATE SET last_active`
statement of `save_conversation` (ensure the user row exists). -/
def ensureUser (now : Nat) (user_id : String) : List UserRow → List UserRow
  | [] => [⟨user_id, none, [], now, now⟩]
  | r :: rs =>
    if r.user_id == user_id then { r with last_active := now } :: rs
    else r :: ensureUser now user_id rs

/-- `DatabaseManager.save_conversation`: user upsert then conversation
insert; `False` on either failure. -/
def save_conversation (o : StoreOutcome) (now : Nat) (db : Db)
    (user_id : String) (conversation_data : String) : Db × Bool :=
  match o with
  | .connFail => (db, false)
  | .stmtError => (db, false)
  | .ok =>
    ({ db with
        users := ensureUser now user_id db.users,
        conversations := db.conversations ++ [⟨user_id, conversation_data, none, now⟩] },
     true)

/-- `DatabaseManager.clear_user_conversations`:
`DELETE FROM conversations WHERE user_id = %s`; `False` on failure. -/
def clear_user_conversations (o : StoreOutcome) (db : Db) (user_id : String) :
    Db × Bool :=
  match o with
  | .connFail => (db, false)
  | .stmtError => (db, false)
  | .ok =>
    ({ db with conversations := db.conversations.filter (fun c => c.user_id != user_id) },
     true)

/-- `DatabaseManager.get_conversation_count`: `SELECT COUNT(*)`; `0` on
failure. -/
def get_conversation_count (o : StoreOutcome) (db : Db) (user_id : String) : Nat :=
  match o with
  | .connFail => 0
  | .stmtError => 0
  | .ok => (userConvRows db user_id).length

structure Analytics where
  total_conversations : Nat
  first_interaction : Option Nat
  last_interaction : Option Nat
deriving DecidableEq, Repr

/-- `DatabaseManager.get_user_analytics`: count plus `MIN`/`MAX` of
`created_at`; the empty dictionary (`none`) on failure. -/
def get_user_analytics (o : StoreOutcome) (db : Db) (user_id : String) :
    Option Analytics :=
  match o with
  | .connFail => none
  | .stmtError => none
  | .ok =>
    let rows := userConvRows db user_id
    some ⟨rows.length,
          (rows.map (fun c => c.created_at)).min?,
          (rows.map (fun c => c.created_at)).max?⟩

/-! ## `ConversationManager` (conversation_manager.py)

The two nondeterministic ingredients — the generated `uuid.uuid4()`
string and the `datetime.now()` renderings — are parameters. -/

/-- `ConversationManager.create_new_session`: the session id is generated
before the store is touched and returned on every path, including both
failure paths (where nothing is inserted). -/
def create_new_session (o : StoreOutcome) (db : Db) (uuid : String)
    (nowStr : String) (now : Nat) (user_id : String) (title : Option String) :
    Db × String :=
  let t :=
    match title with
    | none => "Travel Chat - " ++ nowStr
    | some t => t
  match o with
  | .connFail => (db, uuid)
  | .stmtError => (db, uuid)
  | .ok => ({ db with sessions := db.sessions ++ [⟨uuid, user_id, t, now, now, 0⟩] }, uuid)

/-- `ConversationManager.update_session_title`: `UPDATE conversation_sessions
SET title, last_updated WHERE session_id = %s`; `False` on failure. -/
def update_session_title (o : StoreOutcome) (now : Nat) (db : Db)
    (session_id : String) (new_title : String) : Db × Bool :=
  match o with
  | .connFail => (db, false)
  | .stmtError => (db, false)
  | .ok =>
    ({ db with
        sessions := db.sessions.map (fun s =>
          if s.session_id == session_id then
            { s with title := new_title, last_updated := now }
          else s) },
     true)

/-- `ConversationManager.auto_generate_title`: first six
whitespace-separated words of the first message joined by single
spaces; over 50 characters it becomes the first 47 plus `"..."`; under
10 characters it falls back to the date-stamped default.  `dateStr` is
the `%m/%d` rendering of `datetime.now()`. -/
def auto_generate_title (dateStr : String) (o : StoreOutcome) (now : Nat)
    (db : Db) (session_id : String) (first_message : String) : Db × String :=
  let words := (pySplit first_message).take 6
  let title := pyJoin " " words
  let title :=
    if title.length > 50 then pySlice title 47 ++ "..."
    else if title.length < 10 then "Travel Chat - " ++ dateStr
    else title
  ((update_session_title o now db session_id title).1, title)

/-! ## `AuthManager` (auth.py)

`st.session_state` is modelled by the two keys the manager touches;
`none` means the key is absent.  Timestamps are integer seconds. -/

structure SessionState where
  authenticated : Option Bool
  auth_time : Option Int
deriving DecidableEq, Repr

/-- `AuthManager.session_timeout`: fixed 3600 seconds. -/
def session_timeout : Int := 3600

/-- `AuthManager.verify_password`: plain equality against the configured
application password. -/
def verify_password (app_password password : String) : Bool :=
  password == app_password

/-- `AuthManager.logout`: set the flag to `False` and delete the
timestamp key. -/
def logout (_s : SessionState) : SessionState :=
  { authenticated := some false, auth_time := none }

/-- `AuthManager.is_authenticated`: absent keys mean not authenticated;
past the timeout the state is cleared via `logout`; otherwise the
stored flag is returned.  Returns the flag together with the (possibly
cleared) session state. -/
def is_authenticated (now : Int) (s : SessionState) : Bool × SessionState :=
  match s.authenticated with
  | none => (false, s)
  | some a =>
    match s.auth_time with
    | none => (false, s)
    | some t =>
      if now - t > session_timeout then (false, logout s)
      else (a, s)

/-- `AuthManager.login`: on the correct password set the flag and stamp
the time. -/
def login (app_password : String) (now : Int) (password : String)
    (s : SessionState) : Bool × SessionState :=
  if verify_password app_password password then
    (true, { authenticated := some true, auth_time := some now })
  else (false, s)

/-! ## Theorems -/

/-- C4: the season mapping is a pure function of the month number:
12, 1, 2 map to winter; 3, 4, 5 to spring; 6, 7, 8 to summer; and
9, 10, 11 to autumn — all twelve months checked. -/
theorem get_current_season_spec :
    get_current_season 12 = "winter" ∧ get_current_season 1 = "winter" ∧
    get_current_season 2 = "winter" ∧ get_current_season 3 = "spring" ∧
    get_current_season 4 = "spring" ∧ get_current_season 5 = "spring" ∧
    get_current_season 6 = "summer" ∧ get_current_season 7 = "summer" ∧
    get_current_season 8 = "summer" ∧ get_current_season 9 = "autumn" ∧
    get_current_season 10 = "autumn" ∧ get_current_season 11 = "autumn" := by
  decide

/-- C2: `get_response` yields the first choice's content with surrounding
whitespace stripped on a 200 response with non-empty choices (in
particular the body with content " Paris is lovely " yields
"Paris is lovely"); every non-200 status, malformed or choice-less
body, empty choices array, and transport error yields `none`; the
function is total, so no exception reaches the caller. -/
theorem get_response_spec (content : String) (rest : List (Option String))
    (status : Nat) (body : Body) :
    get_response (.success ⟨200, .parsed (some (some content :: rest))⟩)
      = some (pyStrip content)
    ∧ (status ≠ 200 → get_response (.success ⟨status, body⟩) = none)
    ∧ get_response (.success ⟨200, .malformed⟩) = none
    ∧ get_response (.success ⟨200, .parsed none⟩) = none
    ∧ get_response (.success ⟨200, .parsed (some [])⟩) = none
    ∧ get_response .requestError = none
    ∧ get_response (.success ⟨200, .parsed (some [some " Paris is lovely "])⟩)
      = some "Paris is lovely" := by
  refine ⟨rfl, ?_, rfl, rfl, rfl, rfl, by decide⟩
  intro h
  simp [get_response, h]

/-- Witness for C2 at the spec's concrete failing status 500. -/
theorem get_response_spec_witness :
    get_response (.success ⟨500, .malformed⟩) = none :=
  (get_response_spec "" [] 500 .malformed).2.1 (by decide)

/-- C3: every Primary Store operation returns its benign
empty/false/zero result on a failed connection (`connFail`) and on a
database statement error (`stmtError`); the operations are total
functions, so no exception propagates. -/
theorem store_failure_degrades (db : Db) (u : String) (p : PrefSnapshot)
    (cdata : String) (now : Nat) :
    get_user_data .connFail db u = ⟨[], []⟩
    ∧ get_user_data .stmtError db u = ⟨[], []⟩
    ∧ update_user_preferences .connFail now db u p = (db, false)
    ∧ update_user_preferences .stmtError now db u p = (db, false)
    ∧ save_conversation .connFail now db u cdata = (db, false)
    ∧ save_conversation .stmtError now db u cdata = (db, false)
    ∧ clear_user_conversations .connFail db u = (db, false)
    ∧ clear_user_conversations .stmtError db u = (db, false)
    ∧ get_conversation_count .connFail db u = 0
    ∧ get_conversation_count .stmtError db u = 0
    ∧ get_user_analytics .connFail db u = none
    ∧ get_user_analytics .stmtError db u = none :=
  ⟨rfl, rfl, rfl, rfl, rfl, rfl, rfl, rfl, rfl, rfl, rfl, rfl⟩

/-- C10: `create_new_session` returns the freshly generated UUID on
every outcome, and on either failure outcome the store is unchanged, so
the returned identifier refers to no stored session when it was fresh —
indistinguishable from success for the caller. -/
theorem create_new_session_spec (o : StoreOutcome) (db : Db)
    (uuid nowStr : String) (now : Nat) (u : String) (title : Option String) :
    (create_new_session o db uuid nowStr now u title).2 = uuid
    ∧ (create_new_session .connFail db uuid nowStr now u title).1 = db
    ∧ (create_new_session .stmtError db uuid nowStr now u title).1 = db
    ∧ (uuid ∉ db.sessions.map SessionRow.session_id →
        uuid ∉ ((create_new_session .connFail db uuid nowStr now u title).1).sessions.map
          SessionRow.session_id) := by
  refine ⟨?_, rfl, rfl, fun hf => hf⟩
  cases o <;> rfl

/-- Witness for C10: a fresh id is returned although the insert failed,
and the empty store stays empty. -/
theorem create_new_session_spec_witness :
    (create_new_session .connFail ⟨[], [], []⟩ "id-1" "01/01 00:00" 0 "u" none).2 = "id-1"
    ∧ (create_new_session .connFail ⟨[], [], []⟩ "id-1" "01/01 00:00" 0 "u" none).1.sessions
      = [] :=
  ⟨(create_new_session_spec .connFail ⟨[], [], []⟩ "id-1" "01/01 00:00" 0 "u" none).1, rfl⟩

/-- After the upsert of `update_user_preferences`, the first matching
user row holds exactly the new snapshot. -/
theorem find?_upsertPrefs (now : Nat) (u : String) (p : PrefSnapshot)
    (users : List UserRow) :
    ∃ r, (upsertPrefs now u p users).find? (fun r => r.user_id == u) = some r
      ∧ r.preferences = p := by
  induction users with
  | nil =>
    refine ⟨⟨u, none, p, now, now⟩, ?_, rfl⟩
    simp [upsertPrefs]
  | cons r rs ih =>
    unfold upsertPrefs
    by_cases h : r.user_id == u
    · rw [if_pos h]
      exact ⟨⟨r.user_id, r.email, p, r.created_at, now⟩,
        List.find?_cons_of_pos _ h, rfl⟩
    · rw [if_neg h]
      obtain ⟨row, hfind, hp⟩ := ih
      exact ⟨row, by rw [List.find?_cons_of_neg _ (by simpa using h), hfind], hp⟩

/-- C6: writing a preference snapshot and then reading the user's data
returns exactly that snapshot — the stored snapshot is replaced
wholesale, with no merging of what was stored before. -/
theorem update_then_get_preferences (db : Db) (u : String) (p : PrefSnapshot)
    (now : Nat) :
    (get_user_data .ok ((update_user_preferences .ok now db u p).1) u).preferences
      = p := by
  obtain ⟨row, hfind, hp⟩ := find?_upsertPrefs now u p db.users
  simp [get_user_data, update_user_preferences, hfind, hp]

/-- Rows kept by the delete of `clear_user_conversations` never match
the deleted user again. -/
theorem filter_user_after_clear (l : List ConversationRow) (u : String) :
    (l.filter (fun c => c.user_id != u)).filter (fun c => c.user_id == u) = [] := by
  rw [List.filter_eq_nil_iff]
  intro a ha
  have h : a.user_id ≠ u := by simpa using (List.mem_filter.mp ha).2
  simp [h]

/-- The delete of `clear_user_conversations` is idempotent on the
table. -/
theorem filter_clear_idem (l : List ConversationRow) (u : String) :
    (l.filter (fun c => c.user_id != u)).filter (fun c => c.user_id != u)
      = l.filter (fun c => c.user_id != u) := by
  rw [List.filter_filter]
  simp only [Bool.and_self]

/-- C8: `clear_user_conversations` is idempotent: run twice in
succession against a working store it returns `True` both times, the
user has zero conversation rows after the first run and still after the
second, and the second run leaves the store exactly as the first left
it. -/
theorem clear_conversations_idempotent (db : Db) (u : String) :
    (clear_user_conversations .ok db u).2 = true
    ∧ (clear_user_conversations .ok (clear_user_conversations .ok db u).1 u).2 = true
    ∧ userConvRows (clear_user_conversations .ok db u).1 u = []
    ∧ userConvRows (clear_user_conversations .ok (clear_user_conversations .ok db u).1 u).1 u
      = []
    ∧ (clear_user_conversations .ok (clear_user_conversations .ok db u).1 u).1
      = (clear_user_conversations .ok db u).1 := by
  refine ⟨rfl, rfl, ?_, ?_, ?_⟩
  · exact filter_user_after_clear db.conversations u
  · show ((db.conversations.filter _).filter _).filter _ = []
    rw [filter_clear_idem]
    exact filter_user_after_clear db.conversations u
  · simp only [clear_user_conversations]
    rw [filter_clear_idem]

/-- C5: after a successful login at `now0`, `is_authenticated` returns
`true` while the elapsed time is at most 3600 seconds, and `false` once
it exceeds 3600 seconds — in which case the stored state is cleared
(flag `False`, timestamp key deleted) so that every subsequent check
returns `false`. -/
theorem session_timeout_spec (app_password password : String) (now0 : Int)
    (s : SessionState) (h : verify_password app_password password = true) :
    (login app_password now0 password s).1 = true
    ∧ (∀ d : Int, 0 ≤ d → d ≤ 3600 →
        (is_authenticated (now0 + d) (login app_password now0 password s).2).1 = true)
    ∧ (∀ d : Int, 3600 < d →
        (is_authenticated (now0 + d) (login app_password now0 password s).2).1 = false
        ∧ (is_authenticated (now0 + d) (login app_password now0 password s).2).2
          = ⟨some false, none⟩
        ∧ (∀ now2 : Int,
            (is_authenticated now2
              (is_authenticated (now0 + d) (login app_password now0 password s).2).2).1
              = false)) := by
  have hs : (login app_password now0 password s).2
      = ⟨some true, some now0⟩ := by
    simp [login, h]
  have hlogin : (login app_password now0 password s).1 = true := by
    simp [login, h]
  refine ⟨hlogin, ?_, ?_⟩
  · intro d hd0 hd
    rw [hs]
    simp only [is_authenticated, session_timeout]
    rw [if_neg (by omega)]
  · intro d hd
    rw [hs]
    simp only [is_authenticated, session_timeout]
    rw [if_pos (by omega)]
    refine ⟨rfl, rfl, ?_⟩
    intro now2
    simp [logout, is_authenticated]

/-- Witness for C5: authenticate at time 0 with the default password;
the check is `true` at 3599 seconds, `false` at 3601 seconds, and after
that expiry a further check at any time (here 3602) stays `false`. -/
theorem session_timeout_spec_witness :
    (is_authenticated (0 + 3599) (login "travel2024!" 0 "travel2024!" ⟨none, none⟩).2).1
      = true
    ∧ (is_authenticated (0 + 3601) (login "travel2024!" 0 "travel2024!" ⟨none, none⟩).2).1
      = false
    ∧ (is_authenticated 3602
        (is_authenticated (0 + 3601) (login "travel2024!" 0 "travel2024!" ⟨none, none⟩).2).2).1
      = false := by
  have h := session_timeout_spec "travel2024!" "travel2024!" 0 ⟨none, none⟩ (by decide)
  exact ⟨h.2.1 3599 (by decide) (by decide), (h.2.2 3601 (by decide)).1,
    (h.2.2 3601 (by decide)).2.2 3602⟩

/-- Length of the Python slice `s[:n]`. -/
theorem pySlice_length (s : String) (n : Nat) :
    (pySlice s n).length = min n s.length := by
  show (s.toList.take n).length = min n s.length
  exact List.length_take n s.toList

/-- C7: the auto-generated session title is the first six
whitespace-separated words of the first message joined by single
spaces, kept unmodified when its length is between 10 and 50 characters
inclusive, truncated to the first 47 characters plus "..." (50
characters in total) when longer than 50, and replaced by the
date-stamped default "Travel Chat - month/day" when shorter than 10. -/
theorem auto_generate_title_spec (dateStr sid first_message : String)
    (o : StoreOutcome) (now : Nat) (db : Db) :
    ((10 ≤ (pyJoin " " ((pySplit first_message).take 6)).length ∧
        (pyJoin " " ((pySplit first_message).take 6)).length ≤ 50) →
      (auto_generate_title dateStr o now db sid first_message).2
        = pyJoin " " ((pySplit first_message).take 6))
    ∧ (50 < (pyJoin " " ((pySplit first_message).take 6)).length →
        (auto_generate_title dateStr o now db sid first_message).2
          = pySlice (pyJoin " " ((pySplit first_message).take 6)) 47 ++ "..."
        ∧ (auto_generate_title dateStr o now db sid first_message).2.length = 50)
    ∧ ((pyJoin " " ((pySplit first_message).take 6)).length < 10 →
        (auto_generate_title dateStr o now db sid first_message).2
          = "Travel Chat - " ++ dateStr) := by
  simp only [auto_generate_title]
  refine ⟨?_, ?_, ?_⟩
  · rintro ⟨h10, h50⟩
    rw [if_neg (by omega), if_neg (by omega)]
  · intro h50
    rw [if_pos (by omega)]
    refine ⟨rfl, ?_⟩
    rw [String.length_append, pySlice_length]
    have : (47 : Nat) ≤ (pyJoin " " ((pySplit first_message).take 6)).length := by omega
    simp [Nat.min_eq_left this]
    decide
  · intro h10
    by_cases h50 : (pyJoin " " ((pySplit first_message).take 6)).length > 50
    · omega
    · rw [if_neg (by omega), if_pos (by omega)]

/-- Witness for C7: the spec's eight-word message keeps its first six
words as the title (length 23, inside 10..50), and "Hi" falls back to
the date-stamped default. -/
theorem auto_generate_title_spec_witness :
    (auto_generate_title "01/01" .ok 0 ⟨[], [], []⟩ "s"
        "Plan a trip to Kyoto in spring with my family").2
      = "Plan a trip to Kyoto in"
    ∧ (auto_generate_title "01/01" .ok 0 ⟨[], [], []⟩ "s" "Hi").2
      = "Travel Chat - 01/01" := by
  constructor
  · have h := (auto_generate_title_spec "01/01" "s"
      "Plan a trip to Kyoto in spring with my family" .ok 0 ⟨[], [], []⟩).1
      ⟨by decide, by decide⟩
    rw [h]
    decide
  · have h := (auto_generate_title_spec "01/01" "s" "Hi" .ok 0 ⟨[], [], []⟩).2.2
      (by decide)
    rw [h]
    decide

/-- Rebuilding a message from its own role and content is the
identity, so the loop body of `build_context` copies the history
entries unchanged. -/
theorem map_msg_eta (l : List Msg) :
    l.map (fun m => (⟨m.role, m.content⟩ : Msg)) = l := by
  have h : (fun m : Msg => (⟨m.role, m.content⟩ : Msg)) = id := funext fun _ => rfl
  rw [h, List.map_id]

/-- Closed form of `build_context`: the system message, then the
role-filtered last four history entries, then the new user message.
Covers the empty-history short-circuit and both branches of the
window `if`. -/
theorem build_context_eq (d : String) (mo : Nat) (p : Option Preferences)
    (h : List Msg) (q : String) :
    build_context d mo p h q
      = ⟨"system", get_system_prompt d mo p⟩ ::
        ((h.drop (h.length - 4)).filter
            (fun m => m.role == "user" || m.role == "assistant")
          ++ [⟨"user", q⟩]) := by
  unfold build_context
  cases h with
  | nil => simp
  | cons m ms =>
    by_cases hl : (m :: ms).length > 4
    · simp only [List.length_cons] at hl
      simp [hl, map_msg_eta]
    · simp only [List.length_cons] at hl
      have h3 : ms.length - 3 = 0 := by omega
      simp [hl, map_msg_eta]
      rw [h3, List.drop_zero]

/-- C1: the message list built by `build_context` starts with a
system-role message; the segment strictly between the first and last
element is exactly the role-filtered tail of the last four history
entries (so it has length at most 4 and carries only user/assistant
roles, other roles silently dropped); and the last element is the user
message holding the query. -/
theorem build_context_spec (d : String) (mo : Nat) (p : Option Preferences)
    (h : List Msg) (q : String) :
    ((build_context d mo p h q).head?.map Msg.role) = some "system"
    ∧ ((build_context d mo p h q).drop 1).dropLast
      = (h.drop (h.length - 4)).filter
          (fun m => m.role == "user" || m.role == "assistant")
    ∧ (((build_context d mo p h q).drop 1).dropLast).length ≤ 4
    ∧ (((build_context d mo p h q).drop 1).dropLast).all
        (fun m => m.role == "user" || m.role == "assistant") = true
    ∧ (build_context d mo p h q).getLast? = some ⟨"user", q⟩ := by
  rw [build_context_eq]
  have hmid : ((⟨"system", get_system_prompt d mo p⟩ ::
        ((h.drop (h.length - 4)).filter
            (fun m => m.role == "user" || m.role == "assistant")
          ++ [(⟨"user", q⟩ : Msg)])).drop 1).dropLast
      = (h.drop (h.length - 4)).filter
          (fun m => m.role == "user" || m.role == "assistant") := by
    rw [List.drop_one, List.tail_cons, List.dropLast_concat]
  refine ⟨rfl, hmid, ?_, ?_, ?_⟩
  · rw [hmid]
    calc ((h.drop (h.length - 4)).filter
            (fun m => m.role == "user" || m.role == "assistant")).length
        ≤ (h.drop (h.length - 4)).length := List.length_filter_le _ _
      _ = h.length - (h.length - 4) := List.length_drop _ _
      _ ≤ 4 := by omega
  · rw [hmid]
    rw [List.all_eq_true]
    intro m hm
    exact (List.mem_filter.mp hm).2
  · rw [← List.cons_append, List.getLast?_concat]

/-- Inserting into the descending order is a permutation of consing. -/
theorem insertDesc_perm (c : ConversationRow) (l : List ConversationRow) :
    List.Perm (insertDesc c l) (c :: l) := by
  induction l with
  | nil => exact List.Perm.refl _
  | cons d ds ih =>
    unfold insertDesc
    by_cases hcd : c.created_at ≤ d.created_at
    · rw [if_pos hcd]
      exact (ih.cons d).trans (List.Perm.swap c d ds)
    · rw [if_neg hcd]

/-- `ORDER BY created_at DESC` returns a permutation of the selected
rows: nothing is lost or invented by the ordering itself. -/
theorem sortDesc_perm (l : List ConversationRow) : List.Perm (sortDesc l) l := by
  induction l with
  | nil => exact List.Perm.refl _
  | cons c cs ih => exact (insertDesc_perm c (sortDesc cs)).trans (ih.cons c)

/-- Insertion keeps the list ordered by descending `created_at`. -/
theorem insertDesc_pairwise (c : ConversationRow) (l : List ConversationRow)
    (h : l.Pairwise (fun a b => b.created_at ≤ a.created_at)) :
    (insertDesc c l).Pairwise (fun a b => b.created_at ≤ a.created_at) := by
  induction l with
  | nil => simp [insertDesc]
  | cons d ds ih =>
    rcases List.pairwise_cons.mp h with ⟨hd, hds⟩
    unfold insertDesc
    by_cases hcd : c.created_at ≤ d.created_at
    · rw [if_pos hcd]
      refine List.pairwise_cons.mpr ⟨?_, ih hds⟩
      intro x hx
      rcases List.mem_cons.mp ((insertDesc_perm c ds).mem_iff.mp hx) with hxc | hxds
      · rw [hxc]; exact hcd
      · exact hd x hxds
    · rw [if_neg hcd]
      refine List.pairwise_cons.mpr ⟨?_, h⟩
      intro x hx
      rcases List.mem_cons.mp hx with hxd | hxds
      · rw [hxd]; omega
      · have := hd x hxds; omega

/-- The `ORDER BY created_at DESC` result is sorted by descending
`created_at`. -/
theorem sortDesc_pairwise (l : List ConversationRow) :
    (sortDesc l).Pairwise (fun a b => b.created_at ≤ a.created_at) := by
  induction l with
  | nil => simp [sortDesc]
  | cons c cs ih => exact insertDesc_pairwise c (sortDesc cs) ih

/-- C9: `get_user_data` returns the data of at most the 10 most recent
conversation rows of the user, selected by descending `created_at`: the
result is the 10-element prefix of the descending ordering, every
omitted row is no newer than every returned row, and the returned and
omitted rows together are exactly the user's stored rows — the older
ones are silently omitted but remain in the store. -/
theorem get_user_data_recent_limit (db : Db) (u : String) :
    (get_user_data .ok db u).conversations
      = ((sortDesc (userConvRows db u)).take 10).map (fun c => c.conversation_data)
    ∧ (get_user_data .ok db u).conversations.length ≤ 10
    ∧ List.Perm
        ((sortDesc (userConvRows db u)).take 10 ++ (sortDesc (userConvRows db u)).drop 10)
        (userConvRows db u)
    ∧ ∀ x ∈ (sortDesc (userConvRows db u)).drop 10,
        ∀ y ∈ (sortDesc (userConvRows db u)).take 10, x.created_at ≤ y.created_at := by
  refine ⟨rfl, ?_, ?_, ?_⟩
  · show (((sortDesc (userConvRows db u)).take 10).map _).length ≤ 10
    rw [List.length_map, List.length_take]
    exact min_le_left _ _
  · rw [List.take_append_drop]
    exact sortDesc_perm _
  · intro x hx y hy
    have hp := sortDesc_pairwise (userConvRows db u)
    rw [← List.take_append_drop 10 (sortDesc (userConvRows db u))] at hp
    exact (List.pairwise_append.mp hp).2.2 y hy x hx

/-- Witness for C9 at a store holding twelve conversations for one
user: exactly ten come back, the two oldest are omitted. -/
theorem get_user_data_recent_limit_witness :
    (get_user_data .ok
        ⟨[], [⟨"u", "c1", none, 1⟩, ⟨"u", "c2", none, 2⟩, ⟨"u", "c3", none, 3⟩,
              ⟨"u", "c4", none, 4⟩, ⟨"u", "c5", none, 5⟩, ⟨"u", "c6", none, 6⟩,
              ⟨"u", "c7", none, 7⟩, ⟨"u", "c8", none, 8⟩, ⟨"u", "c9", none, 9⟩,
              ⟨"u", "c10", none, 10⟩, ⟨"u", "c11", none, 11⟩, ⟨"u", "c12", none, 12⟩],
          []⟩ "u").conversations.length ≤ 10 :=
  (get_user_data_recent_limit
    ⟨[], [⟨"u", "c1", none, 1⟩, ⟨"u", "c2", none, 2⟩, ⟨"u", "c3", none, 3⟩,
          ⟨"u", "c4", none, 4⟩, ⟨"u", "c5", none, 5⟩, ⟨"u", "c6", none, 6⟩,
          ⟨"u", "c7", none, 7⟩, ⟨"u", "c8", none, 8⟩, ⟨"u", "c9", none, 9⟩,
          ⟨"u", "c10", none, 10⟩, ⟨"u", "c11", none, 11⟩, ⟨"u", "c12", none, 12⟩],
      []⟩ "u").2.1

end Travel
